import Mathlib

/-
  Verification of the projects-api enhancement service.

  Shallow embedding of the Python sources under src/:
    - src/src/helpers/db_helper.py          (project_helper)
    - src/src/services/project_services.py  (generate_random_project,
        find_project_by_title_and_difficulty, enhance_project,
        create_new_project, delete_project)
    - src/src/services/openai_services.py   (enhance_project_with_ai)
    - src/src/routes/projects_routes.py     (enhance_project_route,
        create_project_route, delete_project_route)
    - src/src/models/project_model.py       (ProjectType, DifficultyLevel,
        ProjectBase)
    - src/src/core/exceptions.py            (error kinds)

  Modelling conventions:
    - The MongoDB collection is a list of raw documents in natural
      (insertion) order plus a counter from which fresh ObjectIds are
      minted.  find_one returns the first list element matching the
      filter; count_documents is the length of the filtered list;
      find(q).skip(i).limit(1) + next() is indexing into the filtered
      list; insert_one appends; delete_one removes the first match.
    - A raw document is a record of optional fields (a Mongo document
      may lack any field); Python dict indexing d["k"] is modelled by
      an Except that fails (KeyError) when the field is absent, and
      d.get("k", default) by Option.getD.
    - ObjectId values are modelled by their 24-character lowercase hex
      string form; str(oid) is the string itself.  bson accepts a
      string as an ObjectId iff it is 24 hex characters; on a
      malformed string the ObjectId constructor raises
      bson.errors.InvalidId whose str() is
      "<id> is not a valid ObjectId, it must be a 12-byte input or a
      24-character hex string" (the repr quotes around the id are
      elided here, as are all apostrophes inside modelled messages).
    - datetime.now(timezone.utc) is modelled by a Nat-valued instant
      supplied as a parameter (one per call site); datetime.isoformat
      by an injective rendering to String.
    - The OpenAI chat-completion call is modelled by an AIOutcome
      parameter: the transport either fails, or returns a payload that
      fails JSON parsing, or parses to an object with four optional
      keys.  Each syntactic call of the client counts one provider
      call in the results below.
    - Unhandled Python exceptions reach the generic handler
      (general_exception_handler, SERVER_ERROR 500); that terminal
      outcome is the serverError error kind below.
-/

namespace ProjectsApi

/-- src/src/models/project_model.py: ProjectType enum. -/
inductive ProjectType where
  | frontend
  | backend
  | fullstack
deriving DecidableEq, Repr

/-- The .value string of a ProjectType member. -/
def ProjectType.value : ProjectType → String
  | .frontend => "frontend"
  | .backend => "backend"
  | .fullstack => "fullstack"

/-- src/src/models/project_model.py: DifficultyLevel enum. -/
inductive DifficultyLevel where
  | beginner
  | intermediate
  | advanced
deriving DecidableEq, Repr

/-- The .value string of a DifficultyLevel member. -/
def DifficultyLevel.value : DifficultyLevel → String
  | .beginner => "beginner"
  | .intermediate => "intermediate"
  | .advanced => "advanced"

/-- A raw stored MongoDB document over the project collection.  Every
field is optional, as in a Mongo document; enum-valued fields are kept
in their stored string form and a justification mapping is an
association list. -/
structure RawDoc where
  _id : Option String := none
  title : Option String := none
  description : Option String := none
  project_type : Option String := none
  difficulty : Option String := none
  tech_stack : Option (List String) := none
  features : Option (List String) := none
  new_features : Option (List String) := none
  justification : Option (List (String × String)) := none
  original_project_id : Option String := none
  created_at : Option Nat := none
  updated_at : Option Nat := none
deriving DecidableEq, Repr

/-- The dictionary produced by project_helper
(src/src/helpers/db_helper.py): all keys present, optional stored
fields defaulted. -/
structure ProjectionView where
  _id : String
  title : String
  description : String
  project_type : String
  difficulty : String
  tech_stack : List String
  features : List String
  new_features : List String
  justification : List (String × String)
  created_at : Option String
  updated_at : Option String
deriving DecidableEq, Repr

/-- datetime.isoformat on a modelled instant: an injective rendering to
a string (the claims inspect only string-or-null, never the shape). -/
def isoformat (t : Nat) : String := toString t

/-- Python dict indexing d[key]: KeyError when the key is absent. -/
def requiredKey (key : String) : Option α → Except String α
  | some a => .ok a
  | none => .error ("KeyError: " ++ key)

/-- src/src/helpers/db_helper.py, project_helper: converts a raw
document to the response dictionary.  A falsy (absent) input yields
None; the five required keys are read with dict indexing, in the order
of the Python dict literal, the rest with .get defaults. -/
def project_helper (project : Option RawDoc) : Except String (Option ProjectionView) :=
  match project with
  | none => .ok none
  | some p => do
    let i ← requiredKey "_id" p._id
    let t ← requiredKey "title" p.title
    let d ← requiredKey "description" p.description
    let pt ← requiredKey "project_type" p.project_type
    let df ← requiredKey "difficulty" p.difficulty
    .ok (some
      { _id := i
        title := t
        description := d
        project_type := pt
        difficulty := df
        tech_stack := p.tech_stack.getD []
        features := p.features.getD []
        new_features := p.new_features.getD []
        justification := p.justification.getD []
        created_at := p.created_at.map isoformat
        updated_at := p.updated_at.map isoformat })

/-- A document is well formed when the five required keys of the
projection are present (spec section 3: every stored document has
them). -/
def RawDoc.wf (p : RawDoc) : Bool :=
  p._id.isSome && p.title.isSome && p.description.isSome &&
    p.project_type.isSome && p.difficulty.isSome

/-- The projection of a well-formed document, written directly (getD on
the required keys never fires a default under wf). -/
def projOf (p : RawDoc) : ProjectionView :=
  { _id := p._id.getD ""
    title := p.title.getD ""
    description := p.description.getD ""
    project_type := p.project_type.getD ""
    difficulty := p.difficulty.getD ""
    tech_stack := p.tech_stack.getD []
    features := p.features.getD []
    new_features := p.new_features.getD []
    justification := p.justification.getD []
    created_at := p.created_at.map isoformat
    updated_at := p.updated_at.map isoformat }

/-- The MongoDB projects collection: documents in natural order, plus
the source of the next generated ObjectId. -/
structure Store where
  docs : List RawDoc
  nextId : Nat
deriving DecidableEq, Repr

/-- Hex digits of n, lowercase, left-padded to 24 characters: the hex
string form of a freshly generated ObjectId. -/
def objectIdOfNat (n : Nat) : String :=
  let hx := Nat.toDigits 16 n
  String.mk (List.replicate (24 - hx.length) '0' ++ hx)

/-- collection.find_one(filter): first document matching. -/
def find_one (db : Store) (p : RawDoc → Bool) : Option RawDoc :=
  db.docs.find? p

/-- collection.count_documents(filter). -/
def count_documents (db : Store) (p : RawDoc → Bool) : Nat :=
  (db.docs.filter p).length

/-- Equality filter of a query {title: t, difficulty: dv}. -/
def matchesTitleDifficulty (t dv : String) (d : RawDoc) : Bool :=
  d.title == some t && d.difficulty == some dv

/-- Equality filter of a query {project_type: ptv, difficulty: dv}. -/
def matchesTypeDifficulty (ptv dv : String) (d : RawDoc) : Bool :=
  d.project_type == some ptv && d.difficulty == some dv

/-- Externally visible terminal outcomes of a request, after the
exception handlers of src/src/main.py have mapped raised exceptions
(src/src/core/exceptions.py, src/src/core/exception_handlers.py):
  - resourceNotFound: ResourceNotFoundException (404, RESOURCE_NOT_FOUND);
  - invalidEnhancementRequest: the 400 INVALID_ENHANCEMENT_REQUEST
    error response built inline by enhance_project_route;
  - invalidId: InvalidIDException (400, INVALID_ID);
  - serverError: any unhandled exception reaching
    general_exception_handler (500, SERVER_ERROR), with the internal
    exception text kept in the details. -/
inductive ApiError where
  | resourceNotFound (resource message : String)
  | invalidEnhancementRequest (message : String)
  | invalidId
  | serverError (details : String)
deriving DecidableEq, Repr

/-- The reply of the generation provider once JSON-parsed: an object
whose four expected keys may each be absent. -/
structure AIReply where
  description : Option String := none
  tech_stack : Option (List String) := none
  new_features : Option (List String) := none
  justification : Option (List (String × String)) := none
deriving DecidableEq, Repr

/-- The outcome of one provider call in openai_services.py: the
chat-completion request raises, or its payload fails json.loads, or it
parses to an AIReply. -/
inductive AIOutcome where
  | transportError (details : String)
  | parseError (details : String)
  | parsed (obj : AIReply)
deriving DecidableEq, Repr

/-- The provider call and reply parse failed when the transport raised,
json.loads raised, or one of the four required keys is absent. -/
def AIOutcome.failed : AIOutcome → Bool
  | .transportError _ => true
  | .parseError _ => true
  | .parsed o =>
      o.description.isNone || o.tech_stack.isNone ||
        o.new_features.isNone || o.justification.isNone

/-- Result of an enhance call: terminal outcome, the store afterwards,
and how many provider (chat-completion) calls were issued. -/
structure EnhanceResult where
  outcome : Except ApiError ProjectionView
  store : Store
  providerCalls : Nat
deriving Repr

/-- The fixed message of the GenerationFailure outcome
(openai_services.py lines 89-92). -/
def generationFailure : ApiError :=
  .resourceNotFound "Enhanced Project" "Unable to generate an enhanced version of this project"

/-- The find_one filter of openai_services.py lines 35-40: same title,
same project_type, target difficulty, and tech_stack having at least
one element of the basis tech_stack ($elemMatch/$in over the stored
array; a document without a tech_stack array cannot match). -/
def elemMatchFilter (basis : ProjectionView) (targetValue : String) (d : RawDoc) : Bool :=
  d.title == some basis.title &&
  d.project_type == some basis.project_type &&
  d.difficulty == some targetValue &&
  (match d.tech_stack with
   | some ts => ts.any (fun x => basis.tech_stack.contains x)
   | none => false)

/-- The enhanced_project dict literal of openai_services.py lines
66-77: title and project_type carried over from the basis projection,
difficulty stamped with the target value, the four generated fields,
original_project_id set (via .get) to the basis projection id string,
and the two datetime.now instants; the _id the store assigns on insert
is included here. -/
def generatedDoc (basis : ProjectionView) (targetValue newId desc : String)
    (ts nf : List String) (j : List (String × String)) (tNow1 tNow2 : Nat) : RawDoc :=
  { _id := some newId
    title := some basis.title
    description := some desc
    project_type := some basis.project_type
    difficulty := some targetValue
    tech_stack := some ts
    new_features := some nf
    justification := some j
    original_project_id := some basis._id
    created_at := some tNow1
    updated_at := some tNow2 }

/-- src/src/services/openai_services.py, enhance_project_with_ai.
project_data is the projection of the basis project (the output of
project_helper, as passed by enhance_project).  Steps:
  - lines 35-43 (outside the try): find_one with elemMatchFilter; a
    hit is projected and returned, with no provider call and no
    insert (a KeyError in that projection would propagate unhandled);
  - otherwise one provider call is issued (modelled by the AIOutcome
    argument); inside the try, a transport error, a parse error or a
    missing required key (KeyError on enhanced_data[...]) is caught
    and collapsed to generationFailure, with nothing inserted;
  - on success the new document is built (title and project_type
    carried over from project_data, difficulty stamped with the
    target value, original_project_id set to the basis projection id
    string via project_data.get, created_at/updated_at from the two
    datetime.now calls tNow1/tNow2), insert_one appends it with a
    fresh ObjectId, and the document is re-read by _id and
    projected. -/
def enhance_project_with_ai (db : Store) (project_data : ProjectionView)
    (target_difficulty : DifficultyLevel) (ai : AIOutcome) (tNow1 tNow2 : Nat) :
    EnhanceResult :=
  match find_one db (elemMatchFilter project_data target_difficulty.value) with
  | some enhanced =>
    match project_helper (some enhanced) with
    | .ok (some v) => ⟨.ok v, db, 0⟩
    | .ok none => ⟨.error (.serverError "unreachable"), db, 0⟩
    | .error e => ⟨.error (.serverError e), db, 0⟩
  | none =>
    match ai with
    | .transportError _ => ⟨.error generationFailure, db, 1⟩
    | .parseError _ => ⟨.error generationFailure, db, 1⟩
    | .parsed obj =>
      match obj.description, obj.tech_stack, obj.new_features, obj.justification with
      | some desc, some ts, some nf, some j =>
        let newId := objectIdOfNat db.nextId
        let newDoc : RawDoc :=
          generatedDoc project_data target_difficulty.value newId desc ts nf j tNow1 tNow2
        let db2 : Store := ⟨db.docs ++ [newDoc], db.nextId + 1⟩
        match find_one db2 (fun d => d._id == some newId) with
        | some saved =>
          match project_helper (some saved) with
          | .ok (some v) => ⟨.ok v, db2, 1⟩
          | .ok none => ⟨.error generationFailure, db2, 1⟩
          | .error _ => ⟨.error generationFailure, db2, 1⟩
        | none => ⟨.error generationFailure, db2, 1⟩
      | _, _, _, _ => ⟨.error generationFailure, db, 1⟩

/-- src/src/services/project_services.py lines 50-75,
find_project_by_title_and_difficulty: find_one on {title, difficulty:
value}; a hit is projected (a KeyError in project_helper would
propagate, hence the Except), a miss returns None. -/
def find_project_by_title_and_difficulty (db : Store) (title : String)
    (difficulty : DifficultyLevel) : Except String (Option ProjectionView) :=
  match find_one db (matchesTitleDifficulty title difficulty.value) with
  | some project => project_helper (some project)
  | none => .ok none

/-- The basis tier actually used by enhance_project lines 113-118: the
supplied current difficulty when present; otherwise the fixed
predecessor of the target (intermediate from beginner, advanced from
intermediate), and still None for a beginner target. -/
def derive_current (currentOpt : Option DifficultyLevel) (target : DifficultyLevel) :
    Option DifficultyLevel :=
  match currentOpt with
  | some c => some c
  | none =>
    match target with
    | .intermediate => some .beginner
    | .advanced => some .intermediate
    | .beginner => none

/-- Message of the basis-miss ResourceNotFoundException
(project_services.py lines 127-130); apostrophes around the two
interpolated values are elided. -/
def basisNotFoundMsg (title cv : String) : String :=
  s!"Original project with title {title} and difficulty {cv} not found"

/-- src/src/services/project_services.py lines 77-137, enhance_project:
  - look up (title, target) and return the hit;
  - otherwise derive the basis tier (when both the supplied current
    difficulty and the predecessor are absent, i.e. a beginner target
    with no current difficulty, the subsequent .value attribute access
    on None raises an unhandled AttributeError);
  - look up (title, basis); a miss raises ResourceNotFoundException
    naming the missing basis project;
  - otherwise hand the basis projection to enhance_project_with_ai. -/
def enhance_project (db : Store) (title : String) (target_difficulty : DifficultyLevel)
    (current_difficulty : Option DifficultyLevel) (ai : AIOutcome) (tNow1 tNow2 : Nat) :
    EnhanceResult :=
  match find_project_by_title_and_difficulty db title target_difficulty with
  | .error e => ⟨.error (.serverError e), db, 0⟩
  | .ok (some enhanced) => ⟨.ok enhanced, db, 0⟩
  | .ok none =>
    match derive_current current_difficulty target_difficulty with
    | none =>
      ⟨.error (.serverError "AttributeError: NoneType object has no attribute value"), db, 0⟩
    | some current =>
      match find_project_by_title_and_difficulty db title current with
      | .error e => ⟨.error (.serverError e), db, 0⟩
      | .ok none =>
        let cv := current.value
        ⟨.error (.resourceNotFound "Project" (basisNotFoundMsg title cv)), db, 0⟩
      | .ok (some current_project) =>
        enhance_project_with_ai db current_project target_difficulty ai tNow1 tNow2

/-- The tier-skip rejection message of enhance_project_route. -/
def tierSkipMsg : String :=
  "Cannot skip difficulty levels. Must enhance to intermediate before advanced."

/-- src/src/routes/projects_routes.py lines 121-152,
enhance_project_route: all three query parameters are required; the
guard rejects current=beginner with target=advanced with a 400
INVALID_ENHANCEMENT_REQUEST error response before anything else runs,
and every other combination is handed to enhance_project with the
supplied current difficulty. -/
def enhance_project_route (db : Store) (title : String)
    (current_difficulty target_difficulty : DifficultyLevel)
    (ai : AIOutcome) (tNow1 tNow2 : Nat) : EnhanceResult :=
  if current_difficulty == DifficultyLevel.beginner &&
      target_difficulty == DifficultyLevel.advanced then
    ⟨.error (.invalidEnhancementRequest tierSkipMsg), db, 0⟩
  else
    enhance_project db title target_difficulty (some current_difficulty) ai tNow1 tNow2

/-- src/src/services/project_services.py lines 10-48,
generate_random_project: count the matches of {project_type, difficulty};
zero raises ResourceNotFoundException; otherwise random.randint(0,
count-1) draws randomIndex (a value in [0, count) inclusive-exclusive,
supplied here as a parameter) and find(query).skip(randomIndex).limit(1)
plus cursor.next() reads the match at that offset, which is projected.
An out-of-range index (excluded by the randint contract) would raise
StopAsyncIteration unhandled. -/
def generate_random_project (db : Store) (project_type : ProjectType)
    (difficulty : DifficultyLevel) (randomIndex : Nat) : Except ApiError ProjectionView :=
  let q := matchesTypeDifficulty project_type.value difficulty.value
  let count := count_documents db q
  if count == 0 then
    .error (.resourceNotFound "Projects" "No projects found matching the selected criteria")
  else
    match (db.docs.filter q).get? randomIndex with
    | some project =>
      match project_helper (some project) with
      | .ok (some v) => .ok v
      | .ok none => .error (.serverError "unreachable")
      | .error e => .error (.serverError e)
    | none => .error (.serverError "StopAsyncIteration")

/-- A hex digit as accepted by the bson ObjectId validator. -/
def isHexDigitChar (c : Char) : Bool :=
  c.isDigit || ('a' ≤ c && c ≤ 'f') || ('A' ≤ c && c ≤ 'F')

/-- bson accepts a string for ObjectId(s) iff it is a 24-character hex
string (stated over the character list of the string). -/
def isValidObjectId (s : String) : Bool :=
  s.data.length == 24 && s.data.all isHexDigitChar

/-- Lowercasing of a hex string (ObjectId equality is on the decoded
bytes, so hex case is immaterial). -/
def lowerHex (s : String) : String :=
  String.mk (s.data.map Char.toLower)

/-- str() of the bson.errors.InvalidId raised by ObjectId(pid) on a
malformed string (the repr quotes around pid are elided). -/
def invalidObjectIdMsg (pid : String) : String :=
  s!"{pid} is not a valid ObjectId, it must be a 12-byte input or a 24-character hex string"

/-- Message of the ResourceNotFoundException of delete_project. -/
def deleteNotFoundMsg (pid : String) : String :=
  s!"Project with ID {pid} not found"

/-- Exceptions that can escape delete_project and be inspected by the
try/except of delete_project_route. -/
inductive PyExc where
  | bsonInvalidId (message : String)
  | httpNotFound (resource message : String)
deriving DecidableEq, Repr

/-- str(e) of those exceptions: bson.errors.InvalidId prints its
message; starlette HTTPException prints status code, colon, detail. -/
def PyExc.text : PyExc → String
  | .bsonInvalidId m => m
  | .httpNotFound _ m => "404: " ++ m

/-- Result of the delete service: the raised-or-returned value, the
store afterwards, and how many store round-trips were issued. -/
structure DeleteAttempt where
  outcome : Except PyExc String
  store : Store
  storeCalls : Nat
deriving Repr

/-- The find_one / delete_one filter {_id: ObjectId(pid)}: ObjectId
equality is on the decoded 12 bytes, so the hex is compared
case-insensitively against the stored (lowercase) id. -/
def idFilter (pid : String) (d : RawDoc) : Bool :=
  d._id == some (lowerHex pid)

/-- collection.delete_one: remove the first matching document. -/
def removeFirst (p : RawDoc → Bool) : List RawDoc → List RawDoc
  | [] => []
  | d :: ds => if p d then ds else d :: removeFirst p ds

/-- src/src/services/project_services.py lines 157-184, delete_project:
ObjectId(project_id) is constructed before any store call and raises
bson.errors.InvalidId on a malformed id (zero store calls); then
find_one by _id (a miss raises ResourceNotFoundException after one
store call); then delete_one and return the dictionary with the id
(two store calls). -/
def delete_project (db : Store) (project_id : String) : DeleteAttempt :=
  if isValidObjectId project_id then
    match find_one db (idFilter project_id) with
    | none => ⟨.error (.httpNotFound "Project" (deleteNotFoundMsg project_id)), db, 1⟩
    | some _ =>
      ⟨.ok project_id, ⟨removeFirst (idFilter project_id) db.docs, db.nextId⟩, 2⟩
  else
    ⟨.error (.bsonInvalidId (invalidObjectIdMsg project_id)), db, 0⟩

/-- Substring occurrence over character lists: the pattern occurs as a
prefix at some position. -/
def containsSub (pat : List Char) : List Char → Bool
  | [] => decide (pat = [])
  | c :: cs => pat.isPrefixOf (c :: cs) || containsSub pat cs

/-- Substring test, as the Python operator in on str. -/
def strContains (s pat : String) : Bool :=
  containsSub pat.data s.data

/-- Result of the delete route at the outer boundary. -/
structure DeleteResult where
  outcome : Except ApiError String
  store : Store
  storeCalls : Nat
deriving Repr

/-- src/src/routes/projects_routes.py lines 283-303,
delete_project_route: the try/except catches every exception of
delete_project; when str(e) contains "Invalid ObjectId" it raises
InvalidIDException; otherwise the exception is re-raised and the
registered handlers of src/src/main.py map it (ResourceNotFoundException
to the 404 resource error, anything unhandled to the generic 500). -/
def delete_project_route (db : Store) (id : String) : DeleteResult :=
  match delete_project db id with
  | ⟨.ok r, db2, n⟩ => ⟨.ok r, db2, n⟩
  | ⟨.error e, db2, n⟩ =>
    if strContains e.text "Invalid ObjectId" then
      ⟨.error .invalidId, db2, n⟩
    else
      match e with
      | .bsonInvalidId m => ⟨.error (.serverError m), db2, n⟩
      | .httpNotFound r m => ⟨.error (.resourceNotFound r m), db2, n⟩

/-- src/src/models/project_model.py lines 26-49, ProjectBase: the
request body of the create route.  Its declared fields are exactly
title, description, project_type, difficulty and tech_stack; it has no
features field. -/
structure ProjectBase where
  title : String
  description : String
  project_type : ProjectType
  difficulty : DifficultyLevel
  tech_stack : List String
deriving DecidableEq, Repr

/-- Result of the create route: terminal outcome plus the store
afterwards. -/
structure CreateResult where
  outcome : Except ApiError ProjectionView
  store : Store
deriving Repr

/-- src/src/routes/projects_routes.py lines 203-242,
create_project_route: the body constructs
Project(..., features=project_data.features); the attribute read
project_data.features is evaluated first and raises AttributeError on
every request, because ProjectBase declares no features field (pydantic
raises on access to an undeclared attribute).  The exception is
unhandled, reaching the generic handler; no model is built and no store
call is issued, so the store is returned unchanged. -/
def create_project_route (db : Store) (_project_data : ProjectBase) : CreateResult :=
  ⟨.error (.serverError "AttributeError: ProjectBase object has no attribute features"), db⟩

/-- A concrete beginner-tier stored document, for evaluating the
theorems below on explicit inputs. -/
def sampleBeginnerDoc : RawDoc :=
  { _id := some "aaaaaaaaaaaaaaaaaaaaaaaa"
    title := some "Portfolio Website"
    description := some "A responsive portfolio website"
    project_type := some "frontend"
    difficulty := some "beginner"
    tech_stack := some ["React", "Tailwind CSS"]
    created_at := some 10
    updated_at := some 10 }

/-- A concrete intermediate-tier enhancement document. -/
def sampleIntermediateDoc : RawDoc :=
  { _id := some "bbbbbbbbbbbbbbbbbbbbbbbb"
    title := some "Portfolio Website"
    description := some "An enhanced portfolio website"
    project_type := some "frontend"
    difficulty := some "intermediate"
    tech_stack := some ["React", "Tailwind CSS"]
    new_features := some ["Authentication"]
    justification := some [("tech_stack", "state management"), ("features", "auth")]
    original_project_id := some "aaaaaaaaaaaaaaaaaaaaaaaa"
    created_at := some 20
    updated_at := some 20 }

/-- A concrete fully-populated provider reply. -/
def sampleReply : AIReply :=
  { description := some "An enhanced portfolio website"
    tech_stack := some ["React", "Redux"]
    new_features := some ["Authentication"]
    justification := some [("tech_stack", "Redux for state"), ("features", "auth")] }

theorem project_helper_wf (p : RawDoc) (h : p.wf = true) :
    project_helper (some p) = .ok (some (projOf p)) := by
  simp only [RawDoc.wf, Bool.and_eq_true, Option.isSome_iff_exists] at h
  obtain ⟨⟨⟨⟨⟨i, hi⟩, ⟨t, ht⟩⟩, ⟨d, hd⟩⟩, ⟨pt, hpt⟩⟩, ⟨df, hdf⟩⟩ := h
  simp [project_helper, requiredKey, projOf, hi, ht, hd, hpt, hdf]
  rfl

theorem find_project_hit (db : Store) (title : String) (difficulty : DifficultyLevel)
    (d : RawDoc) (hd : find_one db (matchesTitleDifficulty title difficulty.value) = some d)
    (hwf : d.wf = true) :
    find_project_by_title_and_difficulty db title difficulty = .ok (some (projOf d)) := by
  simp [find_project_by_title_and_difficulty, hd, project_helper_wf d hwf]

theorem find_project_miss (db : Store) (title : String) (difficulty : DifficultyLevel)
    (h : find_one db (matchesTitleDifficulty title difficulty.value) = none) :
    find_project_by_title_and_difficulty db title difficulty = .ok none := by
  simp [find_project_by_title_and_difficulty, h]

/-- Claim C1: when the store contains a document at (title,
difficulty = target), enhance_project returns the projection of the
first such document found, issues zero provider calls, and leaves the
store unchanged, so re-invocation returns the same result however many
times it repeats.  In particular the short circuit fires whenever a
document with (title, project_type, difficulty = target) exists, the
first (title, target) match being the canonical one. -/
theorem enhance_short_circuit_idempotent (db : Store) (title : String)
    (target : DifficultyLevel) (currentOpt : Option DifficultyLevel)
    (ai : AIOutcome) (t1 t2 : Nat)
    (hwf : ∀ d ∈ db.docs, d.wf = true)
    (hex : ∃ d ∈ db.docs, matchesTitleDifficulty title target.value d = true) :
    ∃ d, find_one db (matchesTitleDifficulty title target.value) = some d ∧
      enhance_project db title target currentOpt ai t1 t2 =
        ⟨.ok (projOf d), db, 0⟩ ∧
      enhance_project (enhance_project db title target currentOpt ai t1 t2).store
          title target currentOpt ai t1 t2 =
        enhance_project db title target currentOpt ai t1 t2 := by
  have hs : (db.docs.find? (matchesTitleDifficulty title target.value)).isSome := by
    rw [List.find?_isSome]
    exact hex
  obtain ⟨d, hd⟩ := Option.isSome_iff_exists.mp hs
  have hfind : find_one db (matchesTitleDifficulty title target.value) = some d := hd
  have hdwf : d.wf = true := hwf d (List.mem_of_find?_eq_some hd)
  have hfp : find_project_by_title_and_difficulty db title target = .ok (some (projOf d)) :=
    find_project_hit db title target d hfind hdwf
  have hmain : enhance_project db title target currentOpt ai t1 t2 =
      ⟨.ok (projOf d), db, 0⟩ := by
    simp [enhance_project, hfp]
  refine ⟨d, hfind, hmain, ?_⟩
  rw [hmain]
  exact hmain

/-- Claim C8: project_helper is total on any well-formed stored
document: the optional fields default to an empty sequence or mapping,
the timestamps render to a string exactly when set, the id string of
the projection is the stored id, and a null input yields a null result
rather than an error. -/
theorem projection_totality (p : RawDoc) (h : p.wf = true) :
    project_helper (some p) = .ok (some (projOf p)) ∧
    (projOf p).tech_stack = p.tech_stack.getD [] ∧
    (projOf p).features = p.features.getD [] ∧
    (projOf p).new_features = p.new_features.getD [] ∧
    (projOf p).justification = p.justification.getD [] ∧
    (projOf p).created_at = p.created_at.map isoformat ∧
    (projOf p).updated_at = p.updated_at.map isoformat ∧
    p._id = some (projOf p)._id ∧
    project_helper none = .ok none := by
  refine ⟨project_helper_wf p h, rfl, rfl, rfl, rfl, rfl, rfl, ?_, rfl⟩
  simp only [RawDoc.wf, Bool.and_eq_true, Option.isSome_iff_exists] at h
  obtain ⟨⟨⟨⟨⟨i, hi⟩, -⟩, -⟩, -⟩, -⟩ := h
  simp [projOf, hi]

theorem find_one_fresh (db : Store) (newDoc : RawDoc) (newId : String)
    (hid : newDoc._id = some newId)
    (hfresh : ∀ d ∈ db.docs, d._id ≠ some newId) :
    (db.docs ++ [newDoc]).find? (fun d => d._id == some newId) = some newDoc := by
  rw [List.find?_append]
  have h1 : db.docs.find? (fun d => d._id == some newId) = none := by
    rw [List.find?_eq_none]
    intro x hx
    simpa using hfresh x hx
  rw [h1]
  simp [List.find?, hid]

theorem generatedDoc_wf (basis : ProjectionView) (targetValue newId desc : String)
    (ts nf : List String) (j : List (String × String)) (t1 t2 : Nat) :
    (generatedDoc basis targetValue newId desc ts nf j t1 t2).wf = true := rfl

/-- Claim C2: when no document exists at (title, target), the basis
tier is the supplied current difficulty, or for an unsupplied one the
fixed predecessor of the target (beginner below intermediate,
intermediate below advanced); and when no document exists at (title,
basis) either, the call fails ResourceNotFound with the message naming
the missing basis project, with zero provider calls and the store
unchanged. -/
theorem enhance_basis_requirement (db : Store) (title : String)
    (target : DifficultyLevel) (currentOpt : Option DifficultyLevel)
    (ai : AIOutcome) (t1 t2 : Nat) (basis : DifficultyLevel)
    (h1 : find_one db (matchesTitleDifficulty title target.value) = none)
    (hb : derive_current currentOpt target = some basis)
    (h2 : find_one db (matchesTitleDifficulty title basis.value) = none) :
    enhance_project db title target currentOpt ai t1 t2 =
      ⟨.error (.resourceNotFound "Project" (basisNotFoundMsg title basis.value)), db, 0⟩ ∧
    (∀ c, currentOpt = some c → basis = c) ∧
    (currentOpt = none → target = .intermediate → basis = .beginner) ∧
    (currentOpt = none → target = .advanced → basis = .intermediate) := by
  refine ⟨?_, ?_, ?_, ?_⟩
  · simp [enhance_project, find_project_miss db title target h1, hb,
      find_project_miss db title basis h2]
  · intro c hc
    rw [hc] at hb
    simp only [derive_current, Option.some.injEq] at hb
    exact hb.symm
  · intro hn ht
    rw [hn, ht] at hb
    simp only [derive_current, Option.some.injEq] at hb
    exact hb.symm
  · intro hn ht
    rw [hn, ht] at hb
    simp only [derive_current, Option.some.injEq] at hb
    exact hb.symm

/-- Claim C3: on a successful generation (pre-check miss, reply with
all four keys), the persisted document is generatedDoc — title and
project_type carried over from the basis unchanged, difficulty equal
to the target, the four generated fields, original_project_id
referencing the basis identifier, and the fresh timestamp pair — the
store becomes the old store with that document appended, and the call
returns the projection of the document as re-read from the store after
insertion. -/
theorem enhance_persist_shape (db : Store) (basis : ProjectionView)
    (target : DifficultyLevel) (obj : AIReply) (desc : String) (ts nf : List String)
    (j : List (String × String)) (t1 t2 : Nat)
    (hpre : find_one db (elemMatchFilter basis target.value) = none)
    (hdesc : obj.description = some desc) (hts : obj.tech_stack = some ts)
    (hnf : obj.new_features = some nf) (hj : obj.justification = some j)
    (hfresh : ∀ d ∈ db.docs, d._id ≠ some (objectIdOfNat db.nextId)) :
    enhance_project_with_ai db basis target (.parsed obj) t1 t2 =
      ⟨.ok (projOf (generatedDoc basis target.value (objectIdOfNat db.nextId) desc ts nf j t1 t2)),
       ⟨db.docs ++ [generatedDoc basis target.value (objectIdOfNat db.nextId) desc ts nf j t1 t2],
        db.nextId + 1⟩, 1⟩ ∧
    (generatedDoc basis target.value (objectIdOfNat db.nextId) desc ts nf j t1 t2).title =
      some basis.title ∧
    (generatedDoc basis target.value (objectIdOfNat db.nextId) desc ts nf j t1 t2).project_type =
      some basis.project_type ∧
    (generatedDoc basis target.value (objectIdOfNat db.nextId) desc ts nf j t1 t2).difficulty =
      some target.value ∧
    (generatedDoc basis target.value (objectIdOfNat db.nextId) desc ts nf j t1 t2).description =
      some desc ∧
    (generatedDoc basis target.value (objectIdOfNat db.nextId) desc ts nf j t1 t2).tech_stack =
      some ts ∧
    (generatedDoc basis target.value (objectIdOfNat db.nextId) desc ts nf j t1 t2).new_features =
      some nf ∧
    (generatedDoc basis target.value (objectIdOfNat db.nextId) desc ts nf j t1 t2).justification =
      some j ∧
    (generatedDoc basis target.value (objectIdOfNat db.nextId) desc ts nf j
        t1 t2).original_project_id = some basis._id ∧
    (generatedDoc basis target.value (objectIdOfNat db.nextId) desc ts nf j t1 t2).created_at =
      some t1 ∧
    (generatedDoc basis target.value (objectIdOfNat db.nextId) desc ts nf j t1 t2).updated_at =
      some t2 := by
  have hfo := find_one_fresh db
    (generatedDoc basis target.value (objectIdOfNat db.nextId) desc ts nf j t1 t2)
    (objectIdOfNat db.nextId) rfl hfresh
  have hpre2 : List.find? (elemMatchFilter basis target.value) db.docs = none := hpre
  refine ⟨?_, rfl, rfl, rfl, rfl, rfl, rfl, rfl, rfl, rfl, rfl⟩
  simp [enhance_project_with_ai, hpre2, hdesc, hts, hnf, hj, find_one, hfo,
    project_helper_wf _ (generatedDoc_wf basis target.value (objectIdOfNat db.nextId)
      desc ts nf j t1 t2)]

/-- Claim C4: every failure inside the AI enhancement client — a
transport error, a reply that fails JSON parsing, or a reply missing
one of the four required keys — collapses to the single error
ResourceNotFound("Enhanced Project") with the fixed message and no
internal diagnostic, the store is unchanged, and exactly one provider
call was made (no retry). -/
theorem enhance_generation_failure (db : Store) (basis : ProjectionView)
    (target : DifficultyLevel) (ai : AIOutcome) (t1 t2 : Nat)
    (hpre : find_one db (elemMatchFilter basis target.value) = none)
    (hfail : ai.failed = true) :
    enhance_project_with_ai db basis target ai t1 t2 =
      ⟨.error (.resourceNotFound "Enhanced Project"
        "Unable to generate an enhanced version of this project"), db, 1⟩ := by
  cases ai with
  | transportError m => simp [enhance_project_with_ai, hpre, generationFailure]
  | parseError m => simp [enhance_project_with_ai, hpre, generationFailure]
  | parsed obj =>
    rcases obj with ⟨d, ts, nf, j⟩
    cases d <;> cases ts <;> cases nf <;> cases j <;>
      simp_all [enhance_project_with_ai, hpre, generationFailure, AIOutcome.failed]

/-- Claim C5: a request with current=beginner and target=advanced is
rejected as an invalid enhancement request with zero provider calls,
the store untouched, and an outcome independent of the store contents
and of the provider; every other combination passes the guard and is
handed to the Resolver (enhance_project) with the supplied current
difficulty. -/
theorem tier_skip_guard (db db2 : Store) (title : String)
    (current target : DifficultyLevel) (ai ai2 : AIOutcome) (t1 t2 t3 t4 : Nat) :
    (current = .beginner → target = .advanced →
      enhance_project_route db title current target ai t1 t2 =
        ⟨.error (.invalidEnhancementRequest tierSkipMsg), db, 0⟩ ∧
      (enhance_project_route db title current target ai t1 t2).outcome =
        (enhance_project_route db2 title current target ai2 t3 t4).outcome) ∧
    (¬(current = .beginner ∧ target = .advanced) →
      enhance_project_route db title current target ai t1 t2 =
        enhance_project db title target (some current) ai t1 t2) := by
  constructor
  · rintro rfl rfl
    exact ⟨rfl, rfl⟩
  · intro h
    have hc : (current == DifficultyLevel.beginner &&
        target == DifficultyLevel.advanced) = false := by
      cases current <;> cases target <;> simp_all
    simp [enhance_project_route, hc]

/-- Claim C7: generate_random_project with zero (project_type,
difficulty) matches fails ResourceNotFound; and for every offset below
the match count — random.randint(0, count-1) draws exactly from that
range — it returns the projection of the match at that offset, whose
project_type and difficulty equal the requested values. -/
theorem random_sample_membership (db : Store) (pt : ProjectType)
    (difficulty : DifficultyLevel) (r : Nat)
    (hwf : ∀ d ∈ db.docs, d.wf = true) :
    (count_documents db (matchesTypeDifficulty pt.value difficulty.value) = 0 →
      generate_random_project db pt difficulty r =
        .error (.resourceNotFound "Projects"
          "No projects found matching the selected criteria")) ∧
    (r < count_documents db (matchesTypeDifficulty pt.value difficulty.value) →
      ∃ d, (db.docs.filter (matchesTypeDifficulty pt.value difficulty.value)).get? r =
          some d ∧
        generate_random_project db pt difficulty r = .ok (projOf d) ∧
        (projOf d).project_type = pt.value ∧
        (projOf d).difficulty = difficulty.value) := by
  constructor
  · intro h0
    have hz : (count_documents db (matchesTypeDifficulty pt.value difficulty.value) == 0) =
        true := by simp [h0]
    simp [generate_random_project, hz]
  · intro hr
    have hlen : r < (db.docs.filter (matchesTypeDifficulty pt.value difficulty.value)).length :=
      hr
    obtain ⟨d, hd⟩ :
        ∃ d, (db.docs.filter (matchesTypeDifficulty pt.value difficulty.value)).get? r =
          some d := by
      cases hg : (db.docs.filter (matchesTypeDifficulty pt.value difficulty.value)).get? r with
      | none =>
        rw [List.get?_eq_none] at hg
        omega
      | some d => exact ⟨d, rfl⟩
    have hmem := List.get?_mem hd
    rw [List.mem_filter] at hmem
    obtain ⟨hmemd, hq⟩ := hmem
    have hdwf := hwf d hmemd
    simp only [matchesTypeDifficulty, Bool.and_eq_true, beq_iff_eq] at hq
    obtain ⟨hpt, hdf⟩ := hq
    have hne : count_documents db (matchesTypeDifficulty pt.value difficulty.value) ≠ 0 := by
      omega
    have hcz : (count_documents db (matchesTypeDifficulty pt.value difficulty.value) == 0) =
        false := beq_eq_false_iff_ne.mpr hne
    have hd2 : (db.docs.filter (matchesTypeDifficulty pt.value difficulty.value))[r]? =
        some d := by
      rw [← List.get?_eq_getElem?]
      exact hd
    refine ⟨d, hd, ?_, ?_, ?_⟩
    · simp [generate_random_project, hcz, hd2, project_helper_wf d hdwf]
    · simp [projOf, hpt]
    · simp [projOf, hdf]

/-- Claim C10: before any provider call, enhance_project_with_ai looks
up a document with the basis title and project_type at the target
difficulty whose tech_stack shares at least one element with the basis
tech_stack; a hit returns its projection with zero provider calls and
no insertion.  The second conjunct pins the filter down: a document
with a different project_type, or with a tech_stack disjoint from the
basis (or absent), cannot match it. -/
theorem elem_match_pre_check (db : Store) (basis : ProjectionView)
    (target : DifficultyLevel) (ai : AIOutcome) (t1 t2 : Nat) (d : RawDoc)
    (hfind : find_one db (elemMatchFilter basis target.value) = some d)
    (hwf : d.wf = true) :
    enhance_project_with_ai db basis target ai t1 t2 = ⟨.ok (projOf d), db, 0⟩ ∧
    (∀ e : RawDoc, elemMatchFilter basis target.value e = true ↔
      (e.title = some basis.title ∧ e.project_type = some basis.project_type ∧
       e.difficulty = some target.value ∧
       ∃ l, e.tech_stack = some l ∧ ∃ x ∈ l, x ∈ basis.tech_stack)) := by
  constructor
  · simp [enhance_project_with_ai, hfind, project_helper_wf d hwf]
  · intro e
    cases hts : e.tech_stack with
    | none => simp [elemMatchFilter, hts]
    | some l => simp [elemMatchFilter, hts, List.any_eq_true, and_assoc]

theorem enhance_ai_store_shape (db : Store) (basis : ProjectionView)
    (target : DifficultyLevel) (ai : AIOutcome) (t1 t2 : Nat) :
    (enhance_project_with_ai db basis target ai t1 t2).store.docs = db.docs ∨
    ∃ desc ts nf j,
      (enhance_project_with_ai db basis target ai t1 t2).store.docs =
        db.docs ++
          [generatedDoc basis target.value (objectIdOfNat db.nextId) desc ts nf j t1 t2] := by
  cases hpre : find_one db (elemMatchFilter basis target.value) with
  | some enhanced =>
    left
    cases hph : project_helper (some enhanced) with
    | ok v =>
      cases v with
      | none => simp [enhance_project_with_ai, hpre, hph]
      | some w => simp [enhance_project_with_ai, hpre, hph]
    | error e => simp [enhance_project_with_ai, hpre, hph]
  | none =>
    cases ai with
    | transportError m => left; simp [enhance_project_with_ai, hpre]
    | parseError m => left; simp [enhance_project_with_ai, hpre]
    | parsed obj =>
      rcases obj with ⟨od, ots, onf, oj⟩
      cases od with
      | none => left; simp [enhance_project_with_ai, hpre]
      | some desc =>
        cases ots with
        | none => left; simp [enhance_project_with_ai, hpre]
        | some ts =>
          cases onf with
          | none => left; simp [enhance_project_with_ai, hpre]
          | some nf =>
            cases oj with
            | none => left; simp [enhance_project_with_ai, hpre]
            | some j =>
              right
              refine ⟨desc, ts, nf, j, ?_⟩
              simp only [enhance_project_with_ai, hpre]
              split
              next => split <;> rfl
              next => rfl

/-- Claim C9: every document in the store after a run of the
enhancement workflow is either one of the previously stored documents
or carries both justification and new_features (the inserted
enhancement document always has both keys, at whatever target tier);
and the create route inserts nothing at all — on every request the
attribute read project_data.features raises AttributeError (ProjectBase
declares no features field), so no caller-submitted document ever
reaches the store through create. -/
theorem enhancement_field_invariant (db : Store) (basis : ProjectionView)
    (target : DifficultyLevel) (ai : AIOutcome) (t1 t2 : Nat) :
    (∀ d ∈ (enhance_project_with_ai db basis target ai t1 t2).store.docs,
      d ∈ db.docs ∨ (d.justification.isSome ∧ d.new_features.isSome)) ∧
    (∀ (db2 : Store) (pb : ProjectBase),
      create_project_route db2 pb =
        ⟨.error (.serverError "AttributeError: ProjectBase object has no attribute features"),
         db2⟩) := by
  refine ⟨?_, fun db2 pb => rfl⟩
  intro d hd
  rcases enhance_ai_store_shape db basis target ai t1 t2 with h | ⟨desc, ts, nf, j, h⟩
  · rw [h] at hd
    exact .inl hd
  · rw [h] at hd
    rcases List.mem_append.mp hd with h2 | h2
    · exact .inl h2
    · right
      rcases List.mem_singleton.mp h2 with rfl
      exact ⟨rfl, rfl⟩

/-- Claim C6: evaluation of the delete path of the code on concrete
inputs over the one-document store.  A malformed id does raise before
any store call, but the exception that reaches the caller is the
generic SERVER_ERROR, not the InvalidId kind: bson's message ("... is
not a valid ObjectId ...") never contains the substring
"Invalid ObjectId" that delete_project_route greps for, so the
intended InvalidIDException conversion is dead code and the
bson.errors.InvalidId falls through to the generic handler.  The
remaining conjuncts show the behaviours the claim states correctly: a
well-formed absent id fails ResourceNotFound after the existence
check, an existing id is removed exactly once returning the id, and
the immediate repeat fails ResourceNotFound. -/
theorem delete_route_evaluation :
    delete_project_route ⟨[sampleBeginnerDoc], 0⟩ "not-a-valid-id" =
      ⟨.error (.serverError (invalidObjectIdMsg "not-a-valid-id")),
        ⟨[sampleBeginnerDoc], 0⟩, 0⟩ ∧
    (delete_project_route ⟨[sampleBeginnerDoc], 0⟩ "not-a-valid-id").outcome ≠
      .error .invalidId ∧
    isValidObjectId "not-a-valid-id" = false ∧
    strContains (invalidObjectIdMsg "not-a-valid-id") "Invalid ObjectId" = false ∧
    delete_project_route ⟨[sampleBeginnerDoc], 0⟩ "ffffffffffffffffffffffff" =
      ⟨.error (.resourceNotFound "Project" (deleteNotFoundMsg "ffffffffffffffffffffffff")),
        ⟨[sampleBeginnerDoc], 0⟩, 1⟩ ∧
    delete_project_route ⟨[sampleBeginnerDoc], 0⟩ "aaaaaaaaaaaaaaaaaaaaaaaa" =
      ⟨.ok "aaaaaaaaaaaaaaaaaaaaaaaa", ⟨[], 0⟩, 2⟩ ∧
    delete_project_route ⟨[], 0⟩ "aaaaaaaaaaaaaaaaaaaaaaaa" =
      ⟨.error (.resourceNotFound "Project" (deleteNotFoundMsg "aaaaaaaaaaaaaaaaaaaaaaaa")),
        ⟨[], 0⟩, 1⟩ := by
  refine ⟨rfl, ?_, rfl, rfl, rfl, rfl, rfl⟩
  intro h
  have h2 : Except.error (ε := ApiError) (α := String)
      (.serverError (invalidObjectIdMsg "not-a-valid-id")) = .error .invalidId := h
  injection h2 with h3
  exact ApiError.noConfusion h3

theorem enhance_short_circuit_idempotent_witness :
    (∀ d ∈ (Store.mk [sampleBeginnerDoc, sampleIntermediateDoc] 3).docs, d.wf = true) ∧
    (∃ d ∈ (Store.mk [sampleBeginnerDoc, sampleIntermediateDoc] 3).docs,
      matchesTitleDifficulty "Portfolio Website" DifficultyLevel.intermediate.value d =
        true) ∧
    (∃ d, find_one (Store.mk [sampleBeginnerDoc, sampleIntermediateDoc] 3)
          (matchesTitleDifficulty "Portfolio Website" DifficultyLevel.intermediate.value) =
        some d ∧
      enhance_project (Store.mk [sampleBeginnerDoc, sampleIntermediateDoc] 3)
          "Portfolio Website" .intermediate none (.parseError "boom") 1 2 =
        ⟨.ok (projOf d), Store.mk [sampleBeginnerDoc, sampleIntermediateDoc] 3, 0⟩ ∧
      enhance_project
          (enhance_project (Store.mk [sampleBeginnerDoc, sampleIntermediateDoc] 3)
            "Portfolio Website" .intermediate none (.parseError "boom") 1 2).store
          "Portfolio Website" .intermediate none (.parseError "boom") 1 2 =
        enhance_project (Store.mk [sampleBeginnerDoc, sampleIntermediateDoc] 3)
          "Portfolio Website" .intermediate none (.parseError "boom") 1 2) :=
  ⟨by decide, by decide,
    enhance_short_circuit_idempotent (Store.mk [sampleBeginnerDoc, sampleIntermediateDoc] 3)
      "Portfolio Website" .intermediate none (.parseError "boom") 1 2
      (by decide) (by decide)⟩

theorem enhance_basis_requirement_witness :
    find_one (Store.mk [] 0)
        (matchesTitleDifficulty "Unknown Project" DifficultyLevel.intermediate.value) =
      none ∧
    derive_current none DifficultyLevel.intermediate = some DifficultyLevel.beginner ∧
    (enhance_project (Store.mk [] 0) "Unknown Project" .intermediate none
        (.parseError "boom") 1 2 =
      ⟨.error (.resourceNotFound "Project"
          (basisNotFoundMsg "Unknown Project" DifficultyLevel.beginner.value)),
        Store.mk [] 0, 0⟩ ∧
      (∀ c, (none : Option DifficultyLevel) = some c → DifficultyLevel.beginner = c) ∧
      ((none : Option DifficultyLevel) = none →
        DifficultyLevel.intermediate = .intermediate → DifficultyLevel.beginner = .beginner) ∧
      ((none : Option DifficultyLevel) = none →
        DifficultyLevel.intermediate = .advanced →
          DifficultyLevel.beginner = .intermediate)) :=
  ⟨rfl, rfl,
    enhance_basis_requirement (Store.mk [] 0) "Unknown Project" .intermediate none
      (.parseError "boom") 1 2 .beginner rfl rfl rfl⟩

theorem enhance_persist_shape_witness :
    (∀ d ∈ (Store.mk [sampleBeginnerDoc] 3).docs, d._id ≠ some (objectIdOfNat 3)) ∧
    sampleReply.description = some "An enhanced portfolio website" ∧
    enhance_project_with_ai (Store.mk [sampleBeginnerDoc] 3) (projOf sampleBeginnerDoc)
        .intermediate (.parsed sampleReply) 1 2 =
      ⟨.ok (projOf (generatedDoc (projOf sampleBeginnerDoc)
          DifficultyLevel.intermediate.value (objectIdOfNat 3)
          "An enhanced portfolio website" ["React", "Redux"] ["Authentication"]
          [("tech_stack", "Redux for state"), ("features", "auth")] 1 2)),
        Store.mk ([sampleBeginnerDoc] ++
          [generatedDoc (projOf sampleBeginnerDoc) DifficultyLevel.intermediate.value
            (objectIdOfNat 3) "An enhanced portfolio website" ["React", "Redux"]
            ["Authentication"] [("tech_stack", "Redux for state"), ("features", "auth")]
            1 2]) 4, 1⟩ :=
  ⟨by decide, rfl,
    (enhance_persist_shape (Store.mk [sampleBeginnerDoc] 3) (projOf sampleBeginnerDoc)
      .intermediate sampleReply "An enhanced portfolio website" ["React", "Redux"]
      ["Authentication"] [("tech_stack", "Redux for state"), ("features", "auth")] 1 2
      rfl rfl rfl rfl rfl (by decide)).1⟩

theorem enhance_generation_failure_witness :
    find_one (Store.mk [sampleBeginnerDoc] 3)
        (elemMatchFilter (projOf sampleBeginnerDoc) DifficultyLevel.intermediate.value) =
      none ∧
    (AIOutcome.parseError "boom").failed = true ∧
    enhance_project_with_ai (Store.mk [sampleBeginnerDoc] 3) (projOf sampleBeginnerDoc)
        .intermediate (.parseError "boom") 1 2 =
      ⟨.error (.resourceNotFound "Enhanced Project"
          "Unable to generate an enhanced version of this project"),
        Store.mk [sampleBeginnerDoc] 3, 1⟩ :=
  ⟨rfl, rfl,
    enhance_generation_failure (Store.mk [sampleBeginnerDoc] 3) (projOf sampleBeginnerDoc)
      .intermediate (.parseError "boom") 1 2 rfl rfl⟩

theorem tier_skip_guard_witness :
    (enhance_project_route (Store.mk [] 0) "Portfolio Website" .beginner .advanced
        (.parseError "boom") 1 2 =
      ⟨.error (.invalidEnhancementRequest tierSkipMsg), Store.mk [] 0, 0⟩) ∧
    (enhance_project_route (Store.mk [] 0) "Portfolio Website" .beginner .intermediate
        (.parseError "boom") 1 2 =
      enhance_project (Store.mk [] 0) "Portfolio Website" .intermediate
        (some .beginner) (.parseError "boom") 1 2) :=
  ⟨((tier_skip_guard (Store.mk [] 0) (Store.mk [] 0) "Portfolio Website" .beginner
      .advanced (.parseError "boom") (.parseError "boom") 1 2 1 2).1 rfl rfl).1,
    (tier_skip_guard (Store.mk [] 0) (Store.mk [] 0) "Portfolio Website" .beginner
      .intermediate (.parseError "boom") (.parseError "boom") 1 2 1 2).2 (by decide)⟩

theorem random_sample_membership_witness :
    (∀ d ∈ (Store.mk [sampleBeginnerDoc] 1).docs, d.wf = true) ∧
    (∃ d, ((Store.mk [sampleBeginnerDoc] 1).docs.filter
          (matchesTypeDifficulty ProjectType.frontend.value
            DifficultyLevel.beginner.value)).get? 0 = some d ∧
      generate_random_project (Store.mk [sampleBeginnerDoc] 1) .frontend .beginner 0 =
        .ok (projOf d) ∧
      (projOf d).project_type = ProjectType.frontend.value ∧
      (projOf d).difficulty = DifficultyLevel.beginner.value) :=
  ⟨by decide,
    (random_sample_membership (Store.mk [sampleBeginnerDoc] 1) .frontend .beginner 0
      (by decide)).2 (by decide)⟩

theorem projection_totality_witness :
    sampleIntermediateDoc.wf = true ∧
    (project_helper (some sampleIntermediateDoc) =
        .ok (some (projOf sampleIntermediateDoc)) ∧
      (projOf sampleIntermediateDoc).tech_stack =
        sampleIntermediateDoc.tech_stack.getD [] ∧
      (projOf sampleIntermediateDoc).features = sampleIntermediateDoc.features.getD [] ∧
      (projOf sampleIntermediateDoc).new_features =
        sampleIntermediateDoc.new_features.getD [] ∧
      (projOf sampleIntermediateDoc).justification =
        sampleIntermediateDoc.justification.getD [] ∧
      (projOf sampleIntermediateDoc).created_at =
        sampleIntermediateDoc.created_at.map isoformat ∧
      (projOf sampleIntermediateDoc).updated_at =
        sampleIntermediateDoc.updated_at.map isoformat ∧
      sampleIntermediateDoc._id = some (projOf sampleIntermediateDoc)._id ∧
      project_helper none = .ok none) :=
  ⟨by decide, projection_totality sampleIntermediateDoc (by decide)⟩

theorem enhancement_field_invariant_witness :
    generatedDoc (projOf sampleBeginnerDoc) DifficultyLevel.intermediate.value
        (objectIdOfNat 0) "An enhanced portfolio website" ["React", "Redux"]
        ["Authentication"] [("tech_stack", "Redux for state"), ("features", "auth")] 1 2 ∈
      (enhance_project_with_ai (Store.mk [] 0) (projOf sampleBeginnerDoc) .intermediate
        (.parsed sampleReply) 1 2).store.docs ∧
    (generatedDoc (projOf sampleBeginnerDoc) DifficultyLevel.intermediate.value
        (objectIdOfNat 0) "An enhanced portfolio website" ["React", "Redux"]
        ["Authentication"] [("tech_stack", "Redux for state"), ("features", "auth")] 1 2 ∈
        (Store.mk [] 0).docs ∨
      ((generatedDoc (projOf sampleBeginnerDoc) DifficultyLevel.intermediate.value
          (objectIdOfNat 0) "An enhanced portfolio website" ["React", "Redux"]
          ["Authentication"] [("tech_stack", "Redux for state"), ("features", "auth")]
          1 2).justification.isSome ∧
        (generatedDoc (projOf sampleBeginnerDoc) DifficultyLevel.intermediate.value
          (objectIdOfNat 0) "An enhanced portfolio website" ["React", "Redux"]
          ["Authentication"] [("tech_stack", "Redux for state"), ("features", "auth")]
          1 2).new_features.isSome)) :=
  ⟨by decide,
    (enhancement_field_invariant (Store.mk [] 0) (projOf sampleBeginnerDoc) .intermediate
      (.parsed sampleReply) 1 2).1
      (generatedDoc (projOf sampleBeginnerDoc) DifficultyLevel.intermediate.value
        (objectIdOfNat 0) "An enhanced portfolio website" ["React", "Redux"]
        ["Authentication"] [("tech_stack", "Redux for state"), ("features", "auth")] 1 2)
      (by decide)⟩

theorem elem_match_pre_check_witness :
    find_one (Store.mk [sampleIntermediateDoc] 5)
        (elemMatchFilter (projOf sampleBeginnerDoc) DifficultyLevel.intermediate.value) =
      some sampleIntermediateDoc ∧
    sampleIntermediateDoc.wf = true ∧
    enhance_project_with_ai (Store.mk [sampleIntermediateDoc] 5) (projOf sampleBeginnerDoc)
        .intermediate (.parseError "boom") 1 2 =
      ⟨.ok (projOf sampleIntermediateDoc), Store.mk [sampleIntermediateDoc] 5, 0⟩ :=
  ⟨rfl, by decide,
    (elem_match_pre_check (Store.mk [sampleIntermediateDoc] 5) (projOf sampleBeginnerDoc)
      .intermediate (.parseError "boom") 1 2 sampleIntermediateDoc rfl (by decide)).1⟩

end ProjectsApi
